import Mathlib

/-!
Shallow embedding of `sway-lsp/src/event_loop/dispatch.rs`: the request and
notification dispatchers of the language-server event loop, the
outcome-to-response mapper `result_to_response`, and the `Task` values that
pooled closures hand back to the main loop.

Modelling conventions:
* `serde_json::Value` payloads are modelled by the scalar inductive `Json`;
  the dispatcher never inspects a payload itself (it only hands it to a
  per-handler decode function), so composite JSON shapes are not needed.
* `anyhow::Error` values are modelled by `HandlerError`, whose constructors
  are exactly the cases distinguished by the downcast chain in
  `result_to_response`: a typed `LspError`, the `Cancelled` signal, and any
  other error carried as its `to_string()` rendering.
* Handler functions, payload decoders (`event_loop::from_json` /
  `Notification::extract`), the result serializer, and the
  `ServerStateExt::snapshot` method are opaque to the dispatcher and are
  passed as function parameters.
* A closure submitted to the thread pool via `spawn` is modelled by the
  `Task` it eventually produces, recorded together with its `ThreadIntent`;
  `none` records a closure that panics (via `unwrap`) instead of producing
  a `Task`.
-/

namespace Dispatch

/-- Scalar model of `serde_json::Value` (payloads are opaque to the dispatcher). -/
inductive Json where
  | null
  | bool (b : Bool)
  | num (n : Int)
  | str (s : String)
  deriving DecidableEq, Repr

/-- `lsp_server::RequestId`: either a number or a string. -/
inductive RequestId where
  | num (n : Int)
  | str (s : String)
  deriving DecidableEq, Repr

/-- The error member of an `lsp_server::Response`: a wire error code plus message. -/
structure ResponseError where
  code : Int
  message : String
  deriving DecidableEq, Repr

/-- `lsp_server::Response`: `{id, result}` on success, `{id, error}` on failure. -/
structure Response where
  id : RequestId
  result : Option Json
  error : Option ResponseError
  deriving DecidableEq, Repr

/-- `lsp_server::Response::new_ok`: a success response serializing the value. -/
def Response.new_ok (id : RequestId) (v : Json) : Response :=
  { id := id, result := some v, error := none }

/-- `lsp_server::Response::new_err`: an error response with the given code and message. -/
def Response.new_err (id : RequestId) (code : Int) (message : String) : Response :=
  { id := id, result := none, error := some { code := code, message := message } }

/-- The `lsp_server::ErrorCode` values used by `dispatch.rs`, as their `i32` casts. -/
def ErrorCode.MethodNotFound : Int := -32601

def ErrorCode.InvalidParams : Int := -32602

def ErrorCode.InternalError : Int := -32603

def ErrorCode.ContentModified : Int := -32801

/-- `lsp_server::Request`: identifier, method name, raw parameter payload. -/
structure Request where
  id : RequestId
  method : String
  params : Json
  deriving DecidableEq, Repr

/-- `lsp_server::Notification`: method name and payload, no identifier. -/
structure Notification where
  method : String
  params : Json
  deriving DecidableEq, Repr

/-- `crate::event_loop::LspError`: a typed protocol error with wire code and message. -/
structure LspError where
  code : Int
  message : String
  deriving DecidableEq, Repr

/-- `anyhow::Error` as classified by the downcast chain of `result_to_response`:
a typed `LspError`, the `Cancelled` signal, or any other error carried as its
`to_string()` rendering. -/
inductive HandlerError where
  | lspError (e : LspError)
  | cancelled
  | other (message : String)
  deriving DecidableEq, Repr

/-- `crate::event_loop::Cancelled`, the payload of the non-response control exit. -/
abbrev Cancelled := Unit

/-- `stdx::thread::ThreadIntent`: scheduling priority hint for pool work. -/
inductive ThreadIntent where
  | worker
  | latencySensitive
  deriving DecidableEq, Repr

/-- `main_loop::Task` as produced by dispatch closures: a finished response, or a
request handed back to be retried. -/
inductive Task where
  | response (r : Response)
  | retry (req : Request)
  deriving DecidableEq, Repr

/-- `result_to_response` (dispatch.rs:303-327): maps a request id and a handler
outcome to either a wire response or the propagated `Cancelled` control value.
`ser` is the `Serialize` instance of the handler's result type. -/
def result_to_response {Res : Type} (ser : Res → Json) (id : RequestId)
    (result : Except HandlerError Res) : Except Cancelled Response :=
  match result with
  | .ok resp => .ok (Response.new_ok id (ser resp))
  | .error (.lspError e) => .ok (Response.new_err id e.code e.message)
  | .error .cancelled => .error ()
  | .error (.other msg) =>
      .ok (Response.new_err id ErrorCode.InternalError msg)

example :
    result_to_response (fun n : Int => Json.num n) (RequestId.num 3) (.ok 42)
      = .ok (Response.new_ok (RequestId.num 3) (Json.num 42)) := rfl

example :
    result_to_response (fun n : Int => Json.num n) (RequestId.num 3)
        (.error .cancelled) = .error () := rfl

/-- The observable side of `ServerStateExt`: the abstract mutable server state
(`State`), the responses sent through `respond` in order, and the closures
submitted to `task_pool.handle.spawn`, each modelled by its intent and the
`Task` it eventually produces (`none` when the closure panics). -/
structure ServerStateExt (State : Type) where
  state : State
  responses : List Response
  spawned : List (ThreadIntent × Option Task)
  deriving DecidableEq, Repr

/-- `ServerStateExt::respond`: queue a response for delivery to the peer. -/
def ServerStateExt.respond {State : Type} (s : ServerStateExt State)
    (resp : Response) : ServerStateExt State :=
  { s with responses := s.responses ++ [resp] }

/-- `ServerStateExt::spawn` through `task_pool.handle`: submit pool work, modelled
by the `Task` the closure will produce (`none` when it panics). -/
def ServerStateExt.spawn {State : Type} (s : ServerStateExt State)
    (intent : ThreadIntent) (task : Option Task) : ServerStateExt State :=
  { s with spawned := s.spawned ++ [(intent, task)] }

/-- `RequestDispatcher`: the request slot plus the server state it mutates. -/
structure RequestDispatcher (State : Type) where
  req : Option Request
  server_state : ServerStateExt State
  deriving DecidableEq, Repr

/-- `RequestDispatcher::parse` (dispatch.rs:242-268): if the held request's method
equals the handler's method, take the request and decode its payload; on decode
failure respond with `InvalidParams` carrying the decode error's message and
consume the request. `decode` models `event_loop::from_json` at the handler's
`Params` type, returning the error's `to_string()` on failure. -/
def RequestDispatcher.parse {State Params : Type} (d : RequestDispatcher State)
    (method : String) (decode : Json → Except String Params) :
    Option (Request × Params) × RequestDispatcher State :=
  match d.req with
  | some req =>
    if req.method = method then
      let d := { d with req := none }
      match decode req.params with
      | .ok params => (some (req, params), d)
      | .error err =>
          let resp := Response.new_err req.id ErrorCode.InvalidParams err
          (none, { d with server_state := d.server_state.respond resp })
    else (none, d)
  | none => (none, d)

/-- `RequestDispatcher::on_sync_mut` (dispatch.rs:41-63): run the handler on the
current thread with mutable access to the server state; respond unless the
outcome maps to the cancellation control value. The handler's mutation of
`ServerStateExt` is modelled on its abstract `State` component. -/
def RequestDispatcher.on_sync_mut {State Params Res : Type}
    (d : RequestDispatcher State) (method : String)
    (decode : Json → Except String Params) (ser : Res → Json)
    (f : State → Params → Except HandlerError Res × State) :
    RequestDispatcher State :=
  match d.parse method decode with
  | (none, d) => d
  | (some (req, params), d) =>
    let (result, state) := f d.server_state.state params
    let d := { d with server_state := { d.server_state with state := state } }
    match result_to_response ser req.id result with
    | .ok response =>
        { d with server_state := d.server_state.respond response }
    | .error _ => d

/-- `RequestDispatcher::on_sync` (dispatch.rs:66-101): take a snapshot, run the
handler on the current thread against it, respond unless the outcome maps to
the cancellation control value. `snapshot` models `ServerStateExt::snapshot`. -/
def RequestDispatcher.on_sync {State Snap Params Res : Type}
    (d : RequestDispatcher State) (snapshot : State → Snap) (method : String)
    (decode : Json → Except String Params) (ser : Res → Json)
    (f : Snap → Params → Except HandlerError Res) :
    RequestDispatcher State :=
  match d.parse method decode with
  | (none, d) => d
  | (some (req, params), d) =>
    let global_state_snapshot := snapshot d.server_state.state
    let result := f global_state_snapshot params
    match result_to_response ser req.id result with
    | .ok response =>
        { d with server_state := d.server_state.respond response }
    | .error _ => d

/-- `RequestDispatcher::on_no_retry` (dispatch.rs:105-156): submit a
`ThreadIntent::Worker` closure that runs the handler against a snapshot; a
cancellation outcome becomes a `ContentModified` error response `Task`, never a
retry. -/
def RequestDispatcher.on_no_retry {State Snap Params Res : Type}
    (d : RequestDispatcher State) (snapshot : State → Snap) (method : String)
    (decode : Json → Except String Params) (ser : Res → Json)
    (f : Snap → Params → Except HandlerError Res) :
    RequestDispatcher State :=
  match d.parse method decode with
  | (none, d) => d
  | (some (req, params), d) =>
    let world := snapshot d.server_state.state
    let task :=
      match result_to_response ser req.id (f world params) with
      | .ok response => Task.response response
      | .error _ =>
          Task.response (Response.new_err req.id ErrorCode.ContentModified
            "content modified")
    { d with server_state := d.server_state.spawn ThreadIntent.worker (some task) }

/-- `RequestDispatcher::on_with_thread_intent` (dispatch.rs:196-240): submit a
closure with the given intent that runs the handler against a snapshot; a
cancellation outcome becomes a `Task::Retry` handing back the original request. -/
def RequestDispatcher.on_with_thread_intent {State Snap Params Res : Type}
    (d : RequestDispatcher State) (intent : ThreadIntent)
    (snapshot : State → Snap) (method : String)
    (decode : Json → Except String Params) (ser : Res → Json)
    (f : Snap → Params → Except HandlerError Res) :
    RequestDispatcher State :=
  match d.parse method decode with
  | (none, d) => d
  | (some (req, params), d) =>
    let world := snapshot d.server_state.state
    let task :=
      match result_to_response ser req.id (f world params) with
      | .ok response => Task.response response
      | .error _ => Task.retry req
    { d with server_state := d.server_state.spawn intent (some task) }

/-- `RequestDispatcher::on` (dispatch.rs:159-169): normal-priority pooled dispatch. -/
def RequestDispatcher.on {State Snap Params Res : Type}
    (d : RequestDispatcher State) (snapshot : State → Snap) (method : String)
    (decode : Json → Except String Params) (ser : Res → Json)
    (f : Snap → Params → Except HandlerError Res) :
    RequestDispatcher State :=
  d.on_with_thread_intent ThreadIntent.worker snapshot method decode ser f

/-- `RequestDispatcher::on_latency_sensitive` (dispatch.rs:172-182):
latency-sensitive pooled dispatch. -/
def RequestDispatcher.on_latency_sensitive {State Snap Params Res : Type}
    (d : RequestDispatcher State) (snapshot : State → Snap) (method : String)
    (decode : Json → Except String Params) (ser : Res → Json)
    (f : Snap → Params → Except HandlerError Res) :
    RequestDispatcher State :=
  d.on_with_thread_intent ThreadIntent.latencySensitive snapshot method decode ser f

/-- `RequestDispatcher::finish` (dispatch.rs:184-194): if the request was never
consumed, respond with `MethodNotFound` under the original request's id. -/
def RequestDispatcher.finish {State : Type} (d : RequestDispatcher State) :
    RequestDispatcher State :=
  match d.req with
  | some req =>
    let resp := Response.new_err req.id ErrorCode.MethodNotFound "unknown request"
    { d with req := none, server_state := d.server_state.respond resp }
  | none => d

/-- The outcome of `lsp_server::Notification::extract`: decoded params, a JSON
deserialization error for a matched method, or a method mismatch handing the
notification back. -/
inductive ExtractResult (Params : Type) where
  | ok (params : Params)
  | jsonError (method : String) (error : String)
  | methodMismatch (n : Notification)
  deriving DecidableEq, Repr

/-- `lsp_server::Notification::extract`: check the method name first, then
deserialize the payload at the expected params type. -/
def Notification.extract {Params : Type} (n : Notification)
    (decode : Json → Except String Params) (method : String) :
    ExtractResult Params :=
  if n.method = method then
    match decode n.params with
    | .ok params => .ok params
    | .error e => .jsonError method e
  else .methodMismatch n

/-- `NotificationDispatcher`: the notification slot plus the server state. -/
structure NotificationDispatcher (State : Type) where
  not : Option Notification
  server_state : ServerStateExt State
  deriving DecidableEq, Repr

/-- How a `NotificationDispatcher` strategy call returns: `ok` is the normal
`Ok(&mut Self)` return, `handlerError` is the `Err` propagated by the `?` on
the handler's result (carrying the dispatcher as further mutated by the
handler), and `panicked` is the `panic!` raised on a JSON decode error for a
matched method. -/
inductive NotifOutcome (State : Type) where
  | ok (d : NotificationDispatcher State)
  | handlerError (e : String) (d : NotificationDispatcher State)
  | panicked (method : String) (error : String)
  deriving DecidableEq, Repr

/-- `NotificationDispatcher::on_sync_mut` (dispatch.rs:335-360): take the
notification; on method mismatch put it back; on decode failure panic; otherwise
run the handler with mutable state access and propagate its error via `?`.
`LanguageServerError` is modelled as its message string. -/
def NotificationDispatcher.on_sync_mut {State Params : Type}
    (d : NotificationDispatcher State) (method : String)
    (decode : Json → Except String Params)
    (f : State → Params → Except String Unit × State) :
    NotifOutcome State :=
  match d.not with
  | none => .ok d
  | some n =>
    let d := { d with not := none }
    match n.extract decode method with
    | .jsonError m e => .panicked m e
    | .methodMismatch n => .ok { d with not := some n }
    | .ok params =>
      let (r, state) := f d.server_state.state params
      let d := { d with server_state := { d.server_state with state := state } }
      match r with
      | .ok _ => .ok d
      | .error e => .handlerError e d

/-- `lsp_types::DidChangeTextDocumentParams`, restricted to the two fields the
closure in `on_did_change` reads. -/
structure DidChangeTextDocumentParams (Uri Changes : Type) where
  uri : Uri
  content_changes : Changes
  deriving DecidableEq, Repr

/-- The snapshot-side session operations called (and `unwrap`ped) inside the
closure of `on_did_change`; each is opaque to the dispatcher and modelled as a
fallible function. -/
structure SessionOps (Snap Uri Session Changes : Type) where
  uri_and_session_from_workspace : Snap → Uri → Except String (Uri × Session)
  write_changes_to_file : Session → Uri → Changes → Except String Unit
  parse_project : Session → Uri → Except String Bool

/-- The closure spawned by `on_did_change` (dispatch.rs:402-417): three
`unwrap`ped session operations in sequence, then a fixed dummy
`Task::Response` under request id `1` with the `ContentModified` code. An
`unwrap` on an `Err` panics, producing no `Task` (`none`). -/
def did_change_closure {Snap Uri Session Changes : Type}
    (ops : SessionOps Snap Uri Session Changes) (state : Snap)
    (params : DidChangeTextDocumentParams Uri Changes) : Option Task :=
  match ops.uri_and_session_from_workspace state params.uri with
  | .error _ => none
  | .ok (uri, session) =>
    match ops.write_changes_to_file session uri params.content_changes with
    | .error _ => none
    | .ok _ =>
      match ops.parse_project session uri with
      | .error _ => none
      | .ok _ =>
          some (Task.response (Response.new_err (RequestId.num 1)
            ErrorCode.ContentModified "content modified"))

/-- `NotificationDispatcher::on_did_change` (dispatch.rs:371-421): take the
notification; on method mismatch put it back; on decode failure panic; otherwise
take a snapshot and spawn a `ThreadIntent::Worker` closure (`did_change_closure`).
The `f` argument of the Rust method is unused (its call is commented out). -/
def NotificationDispatcher.on_did_change {State Snap Uri Session Changes : Type}
    (d : NotificationDispatcher State) (snapshot : State → Snap)
    (ops : SessionOps Snap Uri Session Changes) (method : String)
    (decode : Json → Except String (DidChangeTextDocumentParams Uri Changes)) :
    NotifOutcome State :=
  match d.not with
  | none => .ok d
  | some n =>
    let d := { d with not := none }
    match n.extract decode method with
    | .jsonError m e => .panicked m e
    | .methodMismatch n => .ok { d with not := some n }
    | .ok params =>
      let state := snapshot d.server_state.state
      let task := did_change_closure ops state params
      .ok { d with server_state := d.server_state.spawn ThreadIntent.worker task }

/-! Helper lemmas about `RequestDispatcher.parse`, shared by the claim
theorems below. -/

/-- `parse` on a held request whose method matches and whose payload decodes:
the request is taken and handed to the caller together with its params. -/
theorem parse_matched {State Params : Type} (d : RequestDispatcher State)
    (req : Request) (params : Params) (decode : Json → Except String Params)
    (hreq : d.req = some req) (hdec : decode req.params = .ok params) :
    d.parse req.method decode = (some (req, params), { d with req := none }) := by
  unfold RequestDispatcher.parse
  rw [hreq]
  simp [hdec]

/-- `parse` on a held request whose method differs from the handler's: the
dispatcher is returned unchanged. -/
theorem parse_mismatched {State Params : Type} (d : RequestDispatcher State)
    (req : Request) (method : String) (decode : Json → Except String Params)
    (hreq : d.req = some req) (hne : req.method ≠ method) :
    d.parse method decode = (none, d) := by
  unfold RequestDispatcher.parse
  rw [hreq]
  simp [hne]

/-- `parse` on a held request whose method matches but whose payload fails to
decode: the request is consumed and an `InvalidParams` response carrying the
decode error's message is queued. -/
theorem parse_decode_failed {State Params : Type} (d : RequestDispatcher State)
    (req : Request) (err : String) (decode : Json → Except String Params)
    (hreq : d.req = some req) (hdec : decode req.params = .error err) :
    d.parse req.method decode
      = (none, { d with req := none, server_state := d.server_state.respond (Response.new_err req.id ErrorCode.InvalidParams err) }) := by
  unfold RequestDispatcher.parse
  rw [hreq]
  simp [hdec]

/-- `parse` with an empty request slot: nothing happens. -/
theorem parse_empty {State Params : Type} (d : RequestDispatcher State)
    (method : String) (decode : Json → Except String Params)
    (hreq : d.req = none) :
    d.parse method decode = (none, d) := by
  unfold RequestDispatcher.parse
  rw [hreq]

/-- C2: `result_to_response` maps a success to a success response serializing
the value, a typed `LspError` to an error response with exactly its code and
message, cancellation to the propagated `Cancelled` control value (no
response), and any other failure to an `InternalError` response whose message
is the failure's textual description. -/
theorem C2_result_to_response_cases {Res : Type} (ser : Res → Json)
    (id : RequestId) :
    (∀ v : Res, result_to_response ser id (.ok v)
        = .ok (Response.new_ok id (ser v)))
    ∧ (∀ e : LspError, result_to_response ser id (.error (.lspError e))
        = .ok (Response.new_err id e.code e.message))
    ∧ (result_to_response ser id (.error .cancelled) = .error ())
    ∧ (∀ msg : String, result_to_response ser id (.error (.other msg))
        = .ok (Response.new_err id ErrorCode.InternalError msg)) :=
  ⟨fun _ => rfl, fun _ => rfl, rfl, fun _ => rfl⟩

/-- C6: `finish` on a never-consumed request emits a `MethodNotFound` error
response whose identifier equals the original request's identifier. -/
theorem C6_finish_method_not_found {State : Type} (d : RequestDispatcher State)
    (req : Request) (hreq : d.req = some req) :
    d.finish.server_state.responses
      = d.server_state.responses
        ++ [Response.new_err req.id ErrorCode.MethodNotFound "unknown request"]
    ∧ (Response.new_err req.id ErrorCode.MethodNotFound "unknown request").id
        = req.id := by
  constructor
  · unfold RequestDispatcher.finish
    rw [hreq]
    rfl
  · rfl

/-! Concrete fixtures used by witnesses and counterexamples. -/

/-- A concrete request used by witnesses: id 7, method `"m"`, null payload. -/
def exReq : Request := { id := RequestId.num 7, method := "m", params := Json.null }

/-- A concrete server state over `State := Nat`. -/
def exState : ServerStateExt Nat := { state := 0, responses := [], spawned := [] }

/-- A concrete request dispatcher holding `exReq`. -/
def exDispatcher : RequestDispatcher Nat :=
  { req := some exReq, server_state := exState }

/-- A decoder that accepts any payload as `Unit` params. -/
def okDecode : Json → Except String Unit := fun _ => .ok ()

/-- A decoder that rejects every payload. -/
def failDecode : Json → Except String Unit := fun _ => .error "missing field"

/-- The `Unit` serializer. -/
def serUnit : Unit → Json := fun _ => Json.null

/-- A handler (snapshot form) that raises the cancellation signal. -/
def cancelHandler : Nat → Unit → Except HandlerError Unit := fun _ _ => .error .cancelled

/-- A handler (mutable form) that raises the cancellation signal. -/
def cancelHandlerMut : Nat → Unit → Except HandlerError Unit × Nat :=
  fun s _ => (.error .cancelled, s)

/-! Helper lemmas: each strategy's behaviour when the handler outcome is the
cancellation signal. -/

/-- `on_sync_mut` on a cancelled outcome: the request is consumed, the handler's
state mutation is kept, and no response is emitted (the mapped outcome is the
`Cancelled` control value, silently dropped by the `if let Ok`). -/
theorem on_sync_mut_cancelled {State Params Res : Type}
    (d : RequestDispatcher State) (req : Request) (params : Params) (s' : State)
    (decode : Json → Except String Params) (ser : Res → Json)
    (fmut : State → Params → Except HandlerError Res × State)
    (hreq : d.req = some req) (hdec : decode req.params = .ok params)
    (hmut : fmut d.server_state.state params = (.error .cancelled, s')) :
    d.on_sync_mut req.method decode ser fmut
      = { d with req := none, server_state := { d.server_state with state := s' } } := by
  unfold RequestDispatcher.on_sync_mut
  rw [parse_matched d req params decode hreq hdec]
  simp [hmut, result_to_response]

/-- `on_sync` on a cancelled outcome: the request is consumed and no response is
emitted. -/
theorem on_sync_cancelled {State Snap Params Res : Type}
    (d : RequestDispatcher State) (req : Request) (params : Params)
    (snapshot : State → Snap) (decode : Json → Except String Params)
    (ser : Res → Json) (f : Snap → Params → Except HandlerError Res)
    (hreq : d.req = some req) (hdec : decode req.params = .ok params)
    (hf : f (snapshot d.server_state.state) params = .error .cancelled) :
    d.on_sync snapshot req.method decode ser f = { d with req := none } := by
  unfold RequestDispatcher.on_sync
  rw [parse_matched d req params decode hreq hdec]
  simp [hf, result_to_response]

/-- `on_with_thread_intent` on a cancelled outcome: the spawned closure produces
`Task.retry` handing back the original request. -/
theorem on_with_thread_intent_cancelled {State Snap Params Res : Type}
    (d : RequestDispatcher State) (req : Request) (params : Params)
    (intent : ThreadIntent) (snapshot : State → Snap)
    (decode : Json → Except String Params) (ser : Res → Json)
    (f : Snap → Params → Except HandlerError Res)
    (hreq : d.req = some req) (hdec : decode req.params = .ok params)
    (hf : f (snapshot d.server_state.state) params = .error .cancelled) :
    d.on_with_thread_intent intent snapshot req.method decode ser f
      = { d with req := none, server_state := d.server_state.spawn intent (some (Task.retry req)) } := by
  unfold RequestDispatcher.on_with_thread_intent
  rw [parse_matched d req params decode hreq hdec]
  simp [hf, result_to_response]

/-- `on_no_retry` on a cancelled outcome: the spawned closure produces a
`Task.response` carrying the `ContentModified` error. -/
theorem on_no_retry_cancelled {State Snap Params Res : Type}
    (d : RequestDispatcher State) (req : Request) (params : Params)
    (snapshot : State → Snap) (decode : Json → Except String Params)
    (ser : Res → Json) (f : Snap → Params → Except HandlerError Res)
    (hreq : d.req = some req) (hdec : decode req.params = .ok params)
    (hf : f (snapshot d.server_state.state) params = .error .cancelled) :
    d.on_no_retry snapshot req.method decode ser f
      = { d with req := none, server_state := d.server_state.spawn ThreadIntent.worker (some (Task.response (Response.new_err req.id ErrorCode.ContentModified "content modified"))) } := by
  unfold RequestDispatcher.on_no_retry
  rw [parse_matched d req params decode hreq hdec]
  simp [hf, result_to_response]

/-- C1 counterexample: under the no-retry pooled strategy a cancellation
outcome IS turned into a wire error response `Task` (code `ContentModified`)
delivered to the peer — neither a retry `Task` nor an absent response — so the
claim is false for that strategy. -/
theorem C1_counterexample :
    (exDispatcher.on_no_retry (fun s => s) "m" okDecode serUnit cancelHandler).server_state.spawned
      = [(ThreadIntent.worker, some (Task.response (Response.new_err (RequestId.num 7) ErrorCode.ContentModified "content modified")))]
    ∧ (Response.new_err (RequestId.num 7) ErrorCode.ContentModified "content modified").error
      = some { code := ErrorCode.ContentModified, message := "content modified" } := by
  constructor <;> rfl

/-- C1 (amended): for the mutable-main, read-only-main, and retry-eligible
pooled strategies a cancellation outcome is never turned into a wire error
response — the main-thread strategies silently drop the response and the
retry-eligible pooled strategies produce a retry `Task` handing back the
request; the no-retry pooled strategy, however, turns cancellation into a
"content modified" wire error response `Task`. -/
theorem C1_cancellation_routing {State Snap Params Res : Type}
    (d : RequestDispatcher State) (req : Request) (params : Params) (s' : State)
    (intent : ThreadIntent) (snapshot : State → Snap)
    (decode : Json → Except String Params) (ser : Res → Json)
    (fmut : State → Params → Except HandlerError Res × State)
    (f : Snap → Params → Except HandlerError Res)
    (hreq : d.req = some req) (hdec : decode req.params = .ok params)
    (hmut : fmut d.server_state.state params = (.error .cancelled, s'))
    (hf : f (snapshot d.server_state.state) params = .error .cancelled) :
    d.on_sync_mut req.method decode ser fmut
      = { d with req := none, server_state := { d.server_state with state := s' } }
    ∧ d.on_sync snapshot req.method decode ser f = { d with req := none }
    ∧ d.on_with_thread_intent intent snapshot req.method decode ser f
      = { d with req := none, server_state := d.server_state.spawn intent (some (Task.retry req)) }
    ∧ d.on_no_retry snapshot req.method decode ser f
      = { d with req := none, server_state := d.server_state.spawn ThreadIntent.worker (some (Task.response (Response.new_err req.id ErrorCode.ContentModified "content modified"))) } :=
  ⟨on_sync_mut_cancelled d req params s' decode ser fmut hreq hdec hmut,
   on_sync_cancelled d req params snapshot decode ser f hreq hdec hf,
   on_with_thread_intent_cancelled d req params intent snapshot decode ser f hreq hdec hf,
   on_no_retry_cancelled d req params snapshot decode ser f hreq hdec hf⟩

theorem C1_cancellation_routing_witness :
    exDispatcher.on_sync_mut "m" okDecode serUnit cancelHandlerMut
      = { exDispatcher with req := none, server_state := { exDispatcher.server_state with state := 0 } }
    ∧ exDispatcher.on_sync (fun s => s) "m" okDecode serUnit cancelHandler
      = { exDispatcher with req := none }
    ∧ exDispatcher.on_with_thread_intent ThreadIntent.worker (fun s => s) "m" okDecode serUnit cancelHandler
      = { exDispatcher with req := none, server_state := exDispatcher.server_state.spawn ThreadIntent.worker (some (Task.retry exReq)) }
    ∧ exDispatcher.on_no_retry (fun s => s) "m" okDecode serUnit cancelHandler
      = { exDispatcher with req := none, server_state := exDispatcher.server_state.spawn ThreadIntent.worker (some (Task.response (Response.new_err (RequestId.num 7) ErrorCode.ContentModified "content modified"))) } :=
  C1_cancellation_routing exDispatcher exReq () 0 ThreadIntent.worker (fun s => s)
    okDecode serUnit cancelHandlerMut cancelHandler rfl rfl rfl rfl

/-- C3: under the retry-eligible pooled strategies (normal-priority `on` and
`on_latency_sensitive`) a cancellation outcome makes the spawned closure
produce a `Task.retry` handing back the original request, never a response
`Task`. -/
theorem C3_pooled_cancellation_retries {State Snap Params Res : Type}
    (d : RequestDispatcher State) (req : Request) (params : Params)
    (snapshot : State → Snap) (decode : Json → Except String Params)
    (ser : Res → Json) (f : Snap → Params → Except HandlerError Res)
    (hreq : d.req = some req) (hdec : decode req.params = .ok params)
    (hf : f (snapshot d.server_state.state) params = .error .cancelled) :
    d.on snapshot req.method decode ser f
      = { d with req := none, server_state := d.server_state.spawn ThreadIntent.worker (some (Task.retry req)) }
    ∧ d.on_latency_sensitive snapshot req.method decode ser f
      = { d with req := none, server_state := d.server_state.spawn ThreadIntent.latencySensitive (some (Task.retry req)) } :=
  ⟨on_with_thread_intent_cancelled d req params ThreadIntent.worker snapshot decode ser f hreq hdec hf,
   on_with_thread_intent_cancelled d req params ThreadIntent.latencySensitive snapshot decode ser f hreq hdec hf⟩

theorem C3_pooled_cancellation_retries_witness :
    exDispatcher.on (fun s => s) "m" okDecode serUnit cancelHandler
      = { exDispatcher with req := none, server_state := exDispatcher.server_state.spawn ThreadIntent.worker (some (Task.retry exReq)) }
    ∧ exDispatcher.on_latency_sensitive (fun s => s) "m" okDecode serUnit cancelHandler
      = { exDispatcher with req := none, server_state := exDispatcher.server_state.spawn ThreadIntent.latencySensitive (some (Task.retry exReq)) } :=
  C3_pooled_cancellation_retries exDispatcher exReq () (fun s => s) okDecode serUnit
    cancelHandler rfl rfl rfl

/-- C4: under the no-retry pooled strategy a cancellation outcome makes the
spawned closure produce a response `Task` carrying the `ContentModified` code
(which differs from `InternalError`), never a retry `Task`. -/
theorem C4_no_retry_cancellation_content_modified {State Snap Params Res : Type}
    (d : RequestDispatcher State) (req : Request) (params : Params)
    (snapshot : State → Snap) (decode : Json → Except String Params)
    (ser : Res → Json) (f : Snap → Params → Except HandlerError Res)
    (hreq : d.req = some req) (hdec : decode req.params = .ok params)
    (hf : f (snapshot d.server_state.state) params = .error .cancelled) :
    d.on_no_retry snapshot req.method decode ser f
      = { d with req := none, server_state := d.server_state.spawn ThreadIntent.worker (some (Task.response (Response.new_err req.id ErrorCode.ContentModified "content modified"))) }
    ∧ ErrorCode.ContentModified ≠ ErrorCode.InternalError :=
  ⟨on_no_retry_cancelled d req params snapshot decode ser f hreq hdec hf, by decide⟩

theorem C4_no_retry_cancellation_content_modified_witness :
    exDispatcher.on_no_retry (fun s => s) "m" okDecode serUnit cancelHandler
      = { exDispatcher with req := none, server_state := exDispatcher.server_state.spawn ThreadIntent.worker (some (Task.response (Response.new_err (RequestId.num 7) ErrorCode.ContentModified "content modified"))) }
    ∧ ErrorCode.ContentModified ≠ ErrorCode.InternalError :=
  C4_no_retry_cancellation_content_modified exDispatcher exReq () (fun s => s)
    okDecode serUnit cancelHandler rfl rfl rfl

/-- C5: when the held request's method matches the attempted handler but the
payload fails to decode, every strategy emits an `InvalidParams` response
carrying the decode error's message, consumes the request, and changes nothing
else; the right-hand sides never mention the universally quantified handler or
serializer, so the handler function is never invoked. -/
theorem C5_decode_failure_invalid_params {State Snap Params Res : Type}
    (d : RequestDispatcher State) (req : Request) (err : String)
    (intent : ThreadIntent) (snapshot : State → Snap)
    (decode : Json → Except String Params) (ser : Res → Json)
    (fmut : State → Params → Except HandlerError Res × State)
    (f : Snap → Params → Except HandlerError Res)
    (hreq : d.req = some req) (hdec : decode req.params = .error err) :
    d.on_sync_mut req.method decode ser fmut
      = { d with req := none, server_state := d.server_state.respond (Response.new_err req.id ErrorCode.InvalidParams err) }
    ∧ d.on_sync snapshot req.method decode ser f
      = { d with req := none, server_state := d.server_state.respond (Response.new_err req.id ErrorCode.InvalidParams err) }
    ∧ d.on_no_retry snapshot req.method decode ser f
      = { d with req := none, server_state := d.server_state.respond (Response.new_err req.id ErrorCode.InvalidParams err) }
    ∧ d.on_with_thread_intent intent snapshot req.method decode ser f
      = { d with req := none, server_state := d.server_state.respond (Response.new_err req.id ErrorCode.InvalidParams err) } := by
  have hp := parse_decode_failed d req err decode hreq hdec
  refine ⟨?_, ?_, ?_, ?_⟩
  · unfold RequestDispatcher.on_sync_mut
    rw [hp]
  · unfold RequestDispatcher.on_sync
    rw [hp]
  · unfold RequestDispatcher.on_no_retry
    rw [hp]
  · unfold RequestDispatcher.on_with_thread_intent
    rw [hp]

theorem C5_decode_failure_invalid_params_witness :
    exDispatcher.on_sync_mut "m" failDecode serUnit cancelHandlerMut
      = { exDispatcher with req := none, server_state := exDispatcher.server_state.respond (Response.new_err (RequestId.num 7) ErrorCode.InvalidParams "missing field") }
    ∧ exDispatcher.on_sync (fun s => s) "m" failDecode serUnit cancelHandler
      = { exDispatcher with req := none, server_state := exDispatcher.server_state.respond (Response.new_err (RequestId.num 7) ErrorCode.InvalidParams "missing field") }
    ∧ exDispatcher.on_no_retry (fun s => s) "m" failDecode serUnit cancelHandler
      = { exDispatcher with req := none, server_state := exDispatcher.server_state.respond (Response.new_err (RequestId.num 7) ErrorCode.InvalidParams "missing field") }
    ∧ exDispatcher.on_with_thread_intent ThreadIntent.worker (fun s => s) "m" failDecode serUnit cancelHandler
      = { exDispatcher with req := none, server_state := exDispatcher.server_state.respond (Response.new_err (RequestId.num 7) ErrorCode.InvalidParams "missing field") } :=
  C5_decode_failure_invalid_params exDispatcher exReq "missing field" ThreadIntent.worker
    (fun s => s) failDecode serUnit cancelHandlerMut cancelHandler rfl rfl

theorem C6_finish_method_not_found_witness :
    exDispatcher.finish.server_state.responses
      = [Response.new_err (RequestId.num 7) ErrorCode.MethodNotFound
          "unknown request"]
    ∧ (Response.new_err (RequestId.num 7) ErrorCode.MethodNotFound
        "unknown request").id = RequestId.num 7 := by
  have h := C6_finish_method_not_found exDispatcher exReq rfl
  simpa [exDispatcher, exState, exReq] using h

/-! Concrete notification-side fixtures. -/

/-- A concrete notification with the did-change method name. -/
def exNotif : Notification :=
  { method := "textDocument/didChange", params := Json.null }

/-- A concrete notification dispatcher holding `exNotif`. -/
def exNotifDispatcher : NotificationDispatcher Nat :=
  { not := some exNotif, server_state := exState }

/-- A notification handler that succeeds and leaves the state alone. -/
def okNotifHandler : Nat → Unit → Except String Unit × Nat := fun s _ => (.ok (), s)

/-- Session operations that all succeed. -/
def exSessionOpsOk : SessionOps Nat Nat Nat Nat where
  uri_and_session_from_workspace := fun _ u => .ok (u, 0)
  write_changes_to_file := fun _ _ _ => .ok ()
  parse_project := fun _ _ => .ok true

/-- Session operations whose workspace/session lookup fails. -/
def exSessionOpsFail : SessionOps Nat Nat Nat Nat where
  uri_and_session_from_workspace := fun _ _ => .error "no session"
  write_changes_to_file := fun _ _ _ => .ok ()
  parse_project := fun _ _ => .ok true

/-- Concrete did-change params. -/
def exDidChangeParams : DidChangeTextDocumentParams Nat Nat :=
  { uri := 0, content_changes := 0 }

/-- A did-change decoder that accepts any payload. -/
def exDCDecode : Json → Except String (DidChangeTextDocumentParams Nat Nat) :=
  fun _ => .ok exDidChangeParams

/-- A did-change decoder that rejects every payload. -/
def failDCDecode : Json → Except String (DidChangeTextDocumentParams Nat Nat) :=
  fun _ => .error "missing field"

/-- C7: a dispatch attempt whose method differs from the attempted handler's is
a no-op — slot unchanged, no response emitted, nothing submitted to the pool —
for all four request strategies and both notification strategies; and on a
matched method every request strategy (and `finish`) leaves the request slot
empty. -/
theorem C7_mismatch_noop_consumption_empties {State Snap NState NSnap Params Res NParams Uri Session Changes : Type}
    (d : RequestDispatcher State) (req : Request) (method : String)
    (intent : ThreadIntent) (snapshot : State → Snap)
    (decode : Json → Except String Params) (ser : Res → Json)
    (fmut : State → Params → Except HandlerError Res × State)
    (f : Snap → Params → Except HandlerError Res)
    (dn : NotificationDispatcher NState) (n : Notification)
    (nsnapshot : NState → NSnap) (ops : SessionOps NSnap Uri Session Changes)
    (ndecode : Json → Except String NParams)
    (nf : NState → NParams → Except String Unit × NState)
    (dcdecode : Json → Except String (DidChangeTextDocumentParams Uri Changes))
    (hreq : d.req = some req) (hne : req.method ≠ method)
    (hn : dn.not = some n) (hnne : n.method ≠ method) :
    (d.on_sync_mut method decode ser fmut = d
      ∧ d.on_sync snapshot method decode ser f = d
      ∧ d.on_no_retry snapshot method decode ser f = d
      ∧ d.on_with_thread_intent intent snapshot method decode ser f = d)
    ∧ (dn.on_sync_mut method ndecode nf = .ok dn
      ∧ dn.on_did_change nsnapshot ops method dcdecode = .ok dn)
    ∧ ((d.on_sync_mut req.method decode ser fmut).req = none
      ∧ (d.on_sync snapshot req.method decode ser f).req = none
      ∧ (d.on_no_retry snapshot req.method decode ser f).req = none
      ∧ (d.on_with_thread_intent intent snapshot req.method decode ser f).req = none
      ∧ d.finish.req = none) := by
  have hp := parse_mismatched d req method decode hreq hne
  obtain ⟨slot, nss⟩ := dn
  simp only [NotificationDispatcher.not] at hn
  subst hn
  refine ⟨⟨?_, ?_, ?_, ?_⟩, ⟨?_, ?_⟩, ⟨?_, ?_, ?_, ?_, ?_⟩⟩
  · unfold RequestDispatcher.on_sync_mut
    rw [hp]
  · unfold RequestDispatcher.on_sync
    rw [hp]
  · unfold RequestDispatcher.on_no_retry
    rw [hp]
  · unfold RequestDispatcher.on_with_thread_intent
    rw [hp]
  · unfold NotificationDispatcher.on_sync_mut
    simp [Notification.extract, hnne]
  · unfold NotificationDispatcher.on_did_change
    simp [Notification.extract, hnne]
  · unfold RequestDispatcher.on_sync_mut
    cases hdec : decode req.params with
    | ok params =>
        rw [parse_matched d req params decode hreq hdec]
        rcases h2 : fmut d.server_state.state params with ⟨r, s2⟩
        simp only [h2]
        cases h3 : result_to_response ser req.id r <;> simp [h3]
    | error e =>
        rw [parse_decode_failed d req e decode hreq hdec]
  · unfold RequestDispatcher.on_sync
    cases hdec : decode req.params with
    | ok params =>
        rw [parse_matched d req params decode hreq hdec]
        cases h3 : result_to_response ser req.id (f (snapshot d.server_state.state) params) <;>
          simp [h3]
    | error e =>
        rw [parse_decode_failed d req e decode hreq hdec]
  · unfold RequestDispatcher.on_no_retry
    cases hdec : decode req.params with
    | ok params => rw [parse_matched d req params decode hreq hdec]
    | error e => rw [parse_decode_failed d req e decode hreq hdec]
  · unfold RequestDispatcher.on_with_thread_intent
    cases hdec : decode req.params with
    | ok params => rw [parse_matched d req params decode hreq hdec]
    | error e => rw [parse_decode_failed d req e decode hreq hdec]
  · unfold RequestDispatcher.finish
    rw [hreq]

theorem C7_mismatch_noop_consumption_empties_witness :
    (exDispatcher.on_sync_mut "other" okDecode serUnit cancelHandlerMut = exDispatcher
      ∧ exDispatcher.on_sync (fun s => s) "other" okDecode serUnit cancelHandler = exDispatcher
      ∧ exDispatcher.on_no_retry (fun s => s) "other" okDecode serUnit cancelHandler = exDispatcher
      ∧ exDispatcher.on_with_thread_intent ThreadIntent.worker (fun s => s) "other" okDecode serUnit cancelHandler = exDispatcher)
    ∧ (exNotifDispatcher.on_sync_mut "other" okDecode okNotifHandler = .ok exNotifDispatcher
      ∧ exNotifDispatcher.on_did_change (fun s => s) exSessionOpsOk "other" exDCDecode = .ok exNotifDispatcher)
    ∧ ((exDispatcher.on_sync_mut "m" okDecode serUnit cancelHandlerMut).req = none
      ∧ (exDispatcher.on_sync (fun s => s) "m" okDecode serUnit cancelHandler).req = none
      ∧ (exDispatcher.on_no_retry (fun s => s) "m" okDecode serUnit cancelHandler).req = none
      ∧ (exDispatcher.on_with_thread_intent ThreadIntent.worker (fun s => s) "m" okDecode serUnit cancelHandler).req = none
      ∧ exDispatcher.finish.req = none) :=
  C7_mismatch_noop_consumption_empties exDispatcher exReq "other" ThreadIntent.worker
    (fun s => s) okDecode serUnit cancelHandlerMut cancelHandler exNotifDispatcher exNotif
    (fun s => s) exSessionOpsOk okDecode okNotifHandler exDCDecode
    rfl (by decide) rfl (by decide)

/-- C8 counterexample: with a failing session lookup the error inside the
spawned did-change closure is neither logged nor observed internally — the
`unwrap` turns it into a panic that escapes the closure, which terminates
producing no `Task` at all (`none` in the spawned slot), so the claim that such
errors "never propagate outside the closure" is false at this input. -/
theorem C8_counterexample :
    NotificationDispatcher.on_did_change exNotifDispatcher (fun s => s)
        exSessionOpsFail "textDocument/didChange" exDCDecode
      = .ok { exNotifDispatcher with not := none, server_state := { exState with spawned := [(ThreadIntent.worker, none)] } }
    ∧ did_change_closure exSessionOpsFail 0 exDidChangeParams = none := by
  constructor <;> rfl

/-- C8 (amended): an error arising inside the spawned did-change closure is
never reported to any caller as an error value; each of the three fallible
session operations is `unwrap`ped, so its error makes the closure panic,
terminating it without producing a `Task`. -/
theorem C8_closure_errors_panic {Snap Uri Session Changes : Type}
    (ops : SessionOps Snap Uri Session Changes) (state : Snap)
    (params : DidChangeTextDocumentParams Uri Changes) :
    (∀ e, ops.uri_and_session_from_workspace state params.uri = .error e →
        did_change_closure ops state params = none)
    ∧ (∀ uri session e,
        ops.uri_and_session_from_workspace state params.uri = .ok (uri, session) →
        ops.write_changes_to_file session uri params.content_changes = .error e →
        did_change_closure ops state params = none)
    ∧ (∀ uri session e,
        ops.uri_and_session_from_workspace state params.uri = .ok (uri, session) →
        ops.write_changes_to_file session uri params.content_changes = .ok () →
        ops.parse_project session uri = .error e →
        did_change_closure ops state params = none) := by
  refine ⟨fun e h1 => ?_, fun uri session e h1 h2 => ?_, fun uri session e h1 h2 h3 => ?_⟩ <;>
    unfold did_change_closure
  · rw [h1]
  · simp [h1, h2]
  · simp [h1, h2, h3]

theorem C8_closure_errors_panic_witness :
    did_change_closure exSessionOpsFail 0 exDidChangeParams = none :=
  (C8_closure_errors_panic exSessionOpsFail 0 exDidChangeParams).1 "no session" rfl

/-- C9: every `Task` the pooled did-change closure actually produces is the
fixed dummy response under request id `1` carrying the `ContentModified` code,
whatever the session operations returned. -/
theorem C9_did_change_task_fixed {Snap Uri Session Changes : Type}
    (ops : SessionOps Snap Uri Session Changes) (state : Snap)
    (params : DidChangeTextDocumentParams Uri Changes) (t : Task)
    (h : did_change_closure ops state params = some t) :
    t = Task.response (Response.new_err (RequestId.num 1) ErrorCode.ContentModified "content modified") := by
  unfold did_change_closure at h
  rcases h1 : ops.uri_and_session_from_workspace state params.uri with e1 | ⟨uri, session⟩ <;>
    simp [h1] at h
  rcases h2 : ops.write_changes_to_file session uri params.content_changes with e2 | u <;>
    simp [h2] at h
  rcases h3 : ops.parse_project session uri with e3 | b <;>
    simp [h3] at h
  exact h.symm

theorem C9_did_change_task_fixed_witness :
    did_change_closure exSessionOpsOk 0 exDidChangeParams
      = some (Task.response (Response.new_err (RequestId.num 1) ErrorCode.ContentModified "content modified"))
    ∧ Task.response (Response.new_err (RequestId.num 1) ErrorCode.ContentModified "content modified")
      = Task.response (Response.new_err (RequestId.num 1) ErrorCode.ContentModified "content modified") :=
  ⟨rfl, C9_did_change_task_fixed exSessionOpsOk 0 exDidChangeParams _ rfl⟩

/-- C10: a notification whose method matches the attempted handler but whose
payload fails to decode makes both notification strategies (`on_sync_mut` and
the pooled `on_did_change`) panic instead of returning an error value or
emitting any diagnostic. -/
theorem C10_notification_decode_panics {State Snap Uri Session Changes NParams : Type}
    (dn : NotificationDispatcher State) (n : Notification) (method e : String)
    (ndecode : Json → Except String NParams)
    (nf : State → NParams → Except String Unit × State)
    (snapshot : State → Snap) (ops : SessionOps Snap Uri Session Changes)
    (dcdecode : Json → Except String (DidChangeTextDocumentParams Uri Changes))
    (hn : dn.not = some n) (hm : n.method = method)
    (hdec : ndecode n.params = .error e) (hdec2 : dcdecode n.params = .error e) :
    dn.on_sync_mut method ndecode nf = .panicked method e
    ∧ dn.on_did_change snapshot ops method dcdecode = .panicked method e := by
  constructor
  · unfold NotificationDispatcher.on_sync_mut
    rw [hn]
    simp [Notification.extract, hm, hdec]
  · unfold NotificationDispatcher.on_did_change
    rw [hn]
    simp [Notification.extract, hm, hdec2]

theorem C10_notification_decode_panics_witness :
    exNotifDispatcher.on_sync_mut "textDocument/didChange" failDecode okNotifHandler
      = .panicked "textDocument/didChange" "missing field"
    ∧ exNotifDispatcher.on_did_change (fun s => s) exSessionOpsOk
        "textDocument/didChange" failDCDecode
      = .panicked "textDocument/didChange" "missing field" :=
  C10_notification_decode_panics exNotifDispatcher exNotif "textDocument/didChange"
    "missing field" failDecode okNotifHandler (fun s => s) exSessionOpsOk failDCDecode
    rfl rfl rfl rfl

end Dispatch
